import Mathlib

/-!
Shallow embedding of `graphxai/datasets/BA_shapes/ba_shapes.py` (class
`BAShapes`) and of the parts of the build pipeline that the claims need.
Python exceptions are modelled with `Except PyError`; the global random
state of the `random` and `torch` modules is modelled as explicit streams
of draws (`PyGlobals`).
-/

/-- Python exception kinds raised by the code paths modelled here. -/
inductive PyError where
  | typeError
  | notImplementedError
  | unboundLocal
  | networkXError
  deriving DecidableEq, Repr

/-- A networkx-style graph: nodes are `0 .. n-1`, an undirected edge list,
and the node attributes used by `ba_shapes.py`: `x` (feature vector) and
`shape` (motif-type identifier, `0` = no motif). -/
structure Graph where
  n : Nat
  edges : List (Nat × Nat)
  x : Nat → List ℚ
  shape : Nat → Int

/-- Neighbours of `v`: the other endpoint of every incident edge. -/
def nbrs (G : Graph) (v : Nat) : List Nat :=
  G.edges.filterMap (fun e =>
    if e.1 = v then some e.2 else if e.2 = v then some e.1 else none)

/-- One breadth-first expansion step: the current node set together with
all its neighbours (a set, represented as a duplicate-free list). -/
def khopStep (G : Graph) (S : List Nat) : List Nat :=
  (S ++ (S.map (nbrs G)).flatten).dedup

/-- Modelled from the spec: `khop_subgraph_nx` from
`graphxai.utils.nx_conversion` (not under src/) — "the set of nodes
reachable from a given node within k edge traversals". -/
def khop_subgraph_nx (node_idx : Nat) (num_hops : Nat) (G : Graph) : List Nat :=
  (khopStep G)^[num_hops] [node_idx]

/-- The `str.lower()` method: ASCII lowercasing, character by character. -/
def pyLower (s : String) : String :=
  String.mk (s.data.map (fun c =>
    if 65 ≤ c.toNat ∧ c.toNat ≤ 90 then Char.ofNat (c.toNat + 32) else c))

/-- The `np.unique` call as used in `labeling_rule`: sorted list of the
distinct values. -/
def npUnique (l : List Int) : List Int :=
  (l.insertionSort (fun a b => a ≤ b)).dedup

/-- The `np.median` call: middle element of the sorted list, or the mean
of the two middle elements when the length is even. -/
def npMedian (l : List ℚ) : ℚ :=
  let s := l.insertionSort (fun a b => a ≤ b)
  if l.length % 2 = 1 then s.getD (l.length / 2) 0
  else (s.getD (l.length / 2 - 1) 0 + s.getD (l.length / 2) 0) / 2

/-- The `np.mean` call (used for `avg_ccs` in `labeling_rule`). -/
def npMean (l : List ℚ) : ℚ := l.sum / l.length

/-- The list `x1 = [node_attr[i][1] for i in range(max_node)]` built by the
`'feature'` and `'edge and feature'` branches of `labeling_rule`. -/
def x1_list (G : Graph) : List ℚ :=
  (List.range G.n).map (fun i => (G.x i).getD 1 0)

/-- The statistic `med1 = np.median(x1)` of `labeling_rule`. -/
def med1 (G : Graph) : ℚ := npMedian (x1_list G)

/-- The `num_unique_houses` count of `labeling_rule`:
`len(np.unique([G.nodes[ni]['shape'] for ni in nodes_in_khop if G.nodes[ni]['shape'] > 0]))`
with `nodes_in_khop = khop_subgraph_nx(node_idx, num_hops, G)`. -/
def num_unique_houses (G : Graph) (num_hops node_idx : Nat) : Nat :=
  (npUnique ((((khop_subgraph_nx node_idx num_hops G).filter
    (fun ni => 0 < G.shape ni)).map G.shape))).length

/-- The `'edge'` branch of `labeling_rule`:
`int(num_unique_houses == 1)` (the `torch.tensor` wrapper is modelled as
the integer it wraps). -/
def edge_get_label (G : Graph) (num_hops node_idx : Nat) : Int :=
  if num_unique_houses G num_hops node_idx = 1 then 1 else 0

/-- The integer `int(x1[node_idx] > med1)` computed by the `'feature'`
branch of `labeling_rule` as the argument of the erroneous `torch(...)`
call. -/
def feature_label_int (G : Graph) (node_idx : Nat) : Int :=
  if med1 G < (x1_list G).getD node_idx 0 then 1 else 0

/-- The `'feature'` branch of `labeling_rule`:
`return torch(int(x1[node_idx] > med1), dtype=torch.long)` — the call
applies the `torch` module itself (not `torch.tensor`), so after the
argument is evaluated the call raises `TypeError` for every node. -/
def feature_get_label (G : Graph) (node_idx : Nat) : Except PyError Int :=
  let _v := feature_label_int G node_idx
  Except.error PyError.typeError

/-- The `'edge and feature'` branch of `labeling_rule`:
`int(num_unique_houses == 1 and x1[node_idx] > med1)`. -/
def edge_and_feature_get_label (G : Graph) (num_hops node_idx : Nat) : Int :=
  if num_unique_houses G num_hops node_idx = 1 ∧ med1 G < (x1_list G).getD node_idx 0
  then 1 else 0

/-- The labeling-rule names `BAShapes.labeling_rule` dispatches on. -/
def supportedLabelingMethods : List String := ["edge", "feature", "edge and feature"]

/-- `BAShapes.labeling_rule`: computes `avg_ccs`, then dispatches on the
(already lowercased) labeling method, returning the per-node `get_label`
closure, or raising `NotImplementedError` for any other name.  The
per-node closures are `Except`-valued because the `'feature'` closure
raises when called. -/
def labeling_rule (G : Graph) (num_hops : Nat) (labeling_method : String) :
    Except PyError (Nat → Except PyError Int) :=
  let _avg_ccs := npMean ((List.range G.n).map (fun i => (G.x i).getD 1 0))
  if labeling_method = "edge" then
    Except.ok (fun node_idx => Except.ok (edge_get_label G num_hops node_idx))
  else if labeling_method = "feature" then
    Except.ok (fun node_idx => feature_get_label G node_idx)
  else if labeling_method = "edge and feature" then
    Except.ok (fun node_idx => Except.ok (edge_and_feature_get_label G num_hops node_idx))
  else
    Except.error PyError.notImplementedError

/-- Global mutable RNG state read by the feature closures: the `random`
module's stream of draws (used by `random.choice(range(3))`, modelled as
`head % 3`) and the `torch` global generator's stream of standard-normal
draws (used by `torch.normal`). Neither stream is derived from the
`seed` constructor argument. -/
structure PyGlobals where
  randomState : List Nat
  torchState : List ℚ

/-- The degree of a node (`G.degree[node_idx]`). -/
def degree (G : Graph) (v : Nat) : Nat := (nbrs G v).length

/-- Adjacency test on the edge list. -/
def adj (G : Graph) (u v : Nat) : Bool :=
  G.edges.any (fun e => (e.1 = u ∧ e.2 = v) ∨ (e.1 = v ∧ e.2 = u))

/-- Twice the number of triangles through `v` (ordered neighbour pairs
that are adjacent). -/
def trianglePairs (G : Graph) (v : Nat) : Nat :=
  (((nbrs G v).product (nbrs G v)).filter (fun p => adj G p.1 p.2)).length

/-- The `nx.clustering(G, node_idx)` statistic:
`2 T / (d (d - 1))` with `T` the triangle count, `0` when `d ≤ 1`. -/
def nxClustering (G : Graph) (v : Nat) : ℚ :=
  if degree G v ≤ 1 then 0
  else (trianglePairs G v : ℚ) / ((degree G v : ℚ) * ((degree G v : ℚ) - 1))

/-- The `nx.degree_centrality` statistic: `degree / (n - 1)`. -/
def degCent (G : Graph) (v : Nat) : ℚ :=
  if G.n ≤ 1 then 0 else (degree G v : ℚ) / ((G.n : ℚ) - 1)

/-- The `'network stats'` feature closure:
`[G.degree[node_idx], nx.clustering(G, node_idx), deg_cent[node_idx]]`. -/
def network_stats_get_feature (G : Graph) (v : Nat) : List ℚ :=
  [(degree G v : ℚ), nxClustering G v, degCent G v]

/-- A length-3 one-hot vector with the `1` at position `i`
(`feature = torch.zeros(3); feature[i] = 1`). -/
def onehotVec (i : Nat) : List ℚ :=
  (List.range 3).map (fun j => if j = i then 1 else 0)

/-- The `'onehot'` feature closure: `feature[random.choice(range(3))] = 1`
where the choice is drawn from the `random` module's global state. -/
def onehot_get_feature (g : PyGlobals) : List ℚ :=
  onehotVec (g.randomState.headD 0 % 3)

/-- The feature-strategy names `BAShapes.feature_generator` dispatches on. -/
def supportedFeatureMethods : List String := ["network stats", "gaussian", "onehot"]

/-- `BAShapes.feature_generator`: dispatches on the (already lowercased)
feature method and returns the per-node `get_feature` closure, or raises
`NotImplementedError` for any other name.  A closure takes and returns
the global RNG state it consumes: `'gaussian'` pops three normal draws
from the torch stream, `'onehot'` pops one draw from the `random`
stream, `'network stats'` reads no random state. -/
def feature_generator (G : Graph) (feature_method : String) :
    Except PyError (Nat → PyGlobals → (List ℚ × PyGlobals)) :=
  if feature_method = "network stats" then
    Except.ok (fun node_idx g => (network_stats_get_feature G node_idx, g))
  else if feature_method = "gaussian" then
    Except.ok (fun _node_idx g =>
      (g.torchState.take 3, { g with torchState := g.torchState.drop 3 }))
  else if feature_method = "onehot" then
    Except.ok (fun _node_idx g =>
      (onehot_get_feature g, { g with randomState := g.randomState.drop 1 }))
  else
    Except.error PyError.notImplementedError

/-- Constructor arguments of `BAShapes.__init__` (defaults as in the
source). `n`, `m` and `num_shapes` are Python ints. -/
structure BAArgs where
  num_hops : Nat
  n : Int
  m : Int
  num_shapes : Option Int
  shape : String := "house"
  seed : Option Nat := none
  insert_method : String := "plant"
  plant_method : String := "global"
  feature_method : String := "network stats"
  labeling_method : String := "edge and feature"

/-- Lines 82-84 of the source: lowercase the labeling method and map the
alias `'feature and edge'` to `'edge and feature'`. -/
def canon_labeling (labeling_method : String) : String :=
  let l := pyLower labeling_method
  if l = "feature and edge" then "edge and feature" else l

/-- Lines 86-87 of the source: under the (case-sensitive)
`'neighborhood upper bound'` planting policy a `None` `num_shapes` is
replaced by `n`; any other combination is passed through unchanged. -/
def resolve_num_shapes (plant_method : String) (num_shapes : Option Int) (n : Int) :
    Option Int :=
  if plant_method = "neighborhood upper bound" ∧ num_shapes = none
  then some n else num_shapes

/-- Modelled from the spec: the `house` motif template imported from
`graphxai.datasets.utils.shapes` (not under src/) — "5 nodes forming a
square with a triangular roof". -/
def house : Graph :=
  { n := 5
    edges := [(0, 1), (1, 2), (2, 3), (3, 0), (0, 4), (1, 4)]
    x := fun _ => []
    shape := fun _ => 1 }

/-- Lines 89-94 of the source: the `insert_shape` local after the
`shape` dispatch. Only the `'house'` branch assigns it; the `'flag'` and
`'circle'` branches are `pass`, and no `else` branch exists, so any other
shape name also leaves the local unbound (`none`). -/
def select_insert_shape (shape : String) : Option Graph :=
  if pyLower shape = "house" then some house else none

/-- Modelled from the spec: `nx.barabasi_albert_graph(n, m, seed)` — the
external base-graph builder.  Its parameter contract (spec 4.1): invalid
parameters (`m < 1` or `m ≥ n`) fail with a configuration error before
any graph is built; otherwise the build is a deterministic function of
`(n, m, seed)` alone (identical seed and parameters give an identical
graph).  The preferential-attachment target choice lives in networkx, so
the successful build is modelled by a fixed deterministic edge pattern
(each new node attaches `m` edges to existing nodes); no claim depends
on the exact targets. -/
def barabasi_albert_graph (n m : Int) (seed : Option Nat) : Except PyError Graph :=
  if m < 1 ∨ n ≤ m then Except.error PyError.networkXError
  else
    Except.ok
      { n := n.toNat
        edges := ((List.range n.toNat).filterMap (fun k =>
          if m.toNat ≤ k then some ((List.range m.toNat).map (fun j =>
            (k, (j + k + seed.getD 0) % k))) else none)).flatten
        x := fun _ => []
        shape := fun _ => 0 }

/-- Modelled from the spec: the motif planter of `ShapeGraph`
(`graphxai/datasets/synthetic_dataset.py`, not under src/).  It mutates
the graph in place, tagging planted nodes with the motif's shape type;
it is deterministic given the graph and the planting parameters (spec 5:
all randomness is meant to be seed-driven).  The claims only need that
planting happens between base-graph construction and feature generation
and touches only the `shape` tags and edges, so it is modelled as a
deterministic tagging of the first `5 * num_shapes` nodes. -/
def plant_motifs (G : Graph) (_motif : Graph) (num_shapes : Option Int)
    (_plant_method _insert_method : String) : Graph :=
  { G with shape := fun v =>
      if (v : Int) < 5 * (num_shapes.getD 0) ∧ v < G.n then 1 + (v : Int) / 5 else 0 }

/-- Modelled from the spec: the feature-assignment loop of `ShapeGraph`
(not under src/) — "assigns a feature vector to every node", calling the
`get_feature` closure once per node in node order and threading the
global RNG state through the calls. -/
def assign_features (G : Graph)
    (getF : Nat → PyGlobals → (List ℚ × PyGlobals)) (g : PyGlobals) :
    Graph × PyGlobals :=
  let r := (List.range G.n).foldl
    (fun (acc : (Nat → List ℚ) × PyGlobals) i =>
      let fv := getF i acc.2
      (Function.update acc.1 i fv.1, fv.2))
    (G.x, g)
  ({ G with x := r.1 }, r.2)

/-- Collect the per-node labels in node order; the first exception a
closure raises propagates. -/
def collectLabels (getL : Nat → Except PyError Int) : List Nat → Except PyError (List Int)
  | [] => Except.ok []
  | v :: t => do
    let y ← getL v
    let ys ← collectLabels getL t
    pure (y :: ys)

/-- Modelled from the spec: the label-assignment loop of `ShapeGraph`
(not under src/) — calls the `get_label` closure once per node; any
exception a closure raises propagates and aborts the build. -/
def assign_labels (G : Graph) (getL : Nat → Except PyError Int) :
    Except PyError (List Int) :=
  collectLabels getL (List.range G.n)

/-- The dataset state a successful build produces: the final graph, the
`num_shapes` value handed to the builder, and the per-node labels. -/
structure BuiltState where
  G : Graph
  num_shapes : Option Int
  labels : List Int

/-- Assemble the final dataset state from the labeled graph, or
propagate a labeling exception. -/
def finish_build (G : Graph) (ns : Option Int) (r : Except PyError (List Int)) :
    Except PyError BuiltState :=
  match r with
  | Except.error e => Except.error e
  | Except.ok ys => Except.ok { G := G, num_shapes := ns, labels := ys }

/-- The final pipeline stage: labeling-engine construction followed by
per-node label assignment on the featured graph `Gf`. -/
def build_after_features (Gf : Graph) (num_hops : Nat) (lm : String)
    (ns : Option Int) : Except PyError BuiltState :=
  match labeling_rule Gf num_hops lm with
  | Except.error e => Except.error e
  | Except.ok getL => finish_build Gf ns (assign_labels Gf getL)

/-- The pipeline stages after the base graph and the motifs exist:
feature-generator construction, per-node feature assignment, then
labeling via `build_after_features`. -/
def build_after_base (G1 : Graph) (num_hops : Nat) (fm lm : String)
    (ns : Option Int) (g : PyGlobals) : Except PyError BuiltState :=
  match feature_generator G1 fm with
  | Except.error e => Except.error e
  | Except.ok getF =>
    build_after_features (assign_features G1 getF g).1 num_hops lm ns

/-- `BAShapes.__init__`, including (modelled from the spec, since
`ShapeGraph.__init__` is not under src/) the build pipeline it
delegates to: base graph -> motif planting -> feature generation ->
labeling (spec section 2).  Lines 81-87 preprocess the method strings
and `num_shapes`; lines 89-94 dispatch on `shape`, and when the local
`insert_shape` was never assigned (`'flag'`, `'circle'`, or any unknown
name) the `super().__init__` call raises `UnboundLocalError` when it
evaluates `insertion_shape = insert_shape`. -/
def BAShapes_init (a : BAArgs) (g : PyGlobals) : Except PyError BuiltState :=
  let fm := pyLower a.feature_method
  let lm := canon_labeling a.labeling_method
  let ns := resolve_num_shapes a.plant_method a.num_shapes a.n
  match select_insert_shape a.shape with
  | none => Except.error PyError.unboundLocal
  | some motif =>
    match barabasi_albert_graph a.n a.m a.seed with
    | Except.error e => Except.error e
    | Except.ok G0 =>
      build_after_base (plant_motifs G0 motif ns a.plant_method a.insert_method)
        a.num_hops fm lm ns g

/-- Ground-truth explanation type (external `graphxai.Explanation`); its
content is irrelevant because the generator never produces one. -/
abbrev Explanation := Unit

/-- `BAShapes.explanation_generator`: returns `gen` with
`gen(node_idx) = None` for every node index, for every configuration. -/
def explanation_generator (_a : BAArgs) : Nat → Option Explanation :=
  fun _node_idx => none

/-- Observer: the node count and edge list of a build's graph (the
"node and edge sets" of claim C3), `none` when the build raised. -/
def builtTopology (r : Except PyError BuiltState) : Option (Nat × List (Nat × Nat)) :=
  match r with
  | Except.ok st => some (st.G.n, st.G.edges)
  | Except.error _ => none

/-- Observer: the feature vector of one node of a build's graph. -/
def builtFeature (r : Except PyError BuiltState) (v : Nat) : Option (List ℚ) :=
  match r with
  | Except.ok st => some (st.G.x v)
  | Except.error _ => none

/-- Observer: the `num_shapes` a build handed to the builder. -/
def builtNumShapes (r : Except PyError BuiltState) : Option (Option Int) :=
  match r with
  | Except.ok st => some st.num_shapes
  | Except.error _ => none

/-- Two concrete global RNG states whose `random` streams differ. -/
def gStateA : PyGlobals := { randomState := [0, 0, 0, 0, 0], torchState := [] }

/-- A second concrete global RNG state. -/
def gStateB : PyGlobals := { randomState := [1, 1, 1, 1, 1], torchState := [] }

/-- Concrete constructor arguments: one-hot features, edge labeling. -/
def onehotArgs : BAArgs :=
  { num_hops := 1, n := 4, m := 1, num_shapes := some 0,
    feature_method := "onehot", labeling_method := "edge" }

/-- Concrete constructor arguments with the `'feature'` labeling rule. -/
def featureRuleArgs : BAArgs :=
  { num_hops := 1, n := 4, m := 1, num_shapes := some 1,
    labeling_method := "feature" }

/-- Concrete constructor arguments asking for the unimplemented `'flag'`
motif. -/
def flagArgs : BAArgs :=
  { num_hops := 1, n := 5, m := 1, num_shapes := some 1, shape := "flag" }

/-- Concrete constructor arguments asking for the unimplemented
`'circle'` motif. -/
def circleArgs : BAArgs :=
  { num_hops := 1, n := 5, m := 1, num_shapes := some 1, shape := "circle" }

/-- Concrete three-node graph on which the `'edge and feature'` label of
node 0 is 1: node 1 carries a motif tag and node 0's feature coordinate 1
exceeds the dataset median. -/
def andGraph : Graph :=
  { n := 3
    edges := [(0, 1), (0, 2)]
    x := fun v => if v = 0 then [0, 2, 0] else [0, 0, 0]
    shape := fun v => if v = 1 then 1 else 0 }

/-- Concrete three-node graph with no motif tags at all. -/
def noMotifGraph : Graph :=
  { n := 3
    edges := [(0, 1), (1, 2)]
    x := fun _ => [0, 0, 0]
    shape := fun _ => 0 }

/-- Concrete constructor arguments with an unsupported feature strategy. -/
def badFeatureArgs : BAArgs :=
  { num_hops := 1, n := 5, m := 1, num_shapes := some 1,
    feature_method := "Bogus" }

/-- Concrete constructor arguments with an unsupported labeling rule. -/
def badLabelingArgs : BAArgs :=
  { num_hops := 1, n := 5, m := 1, num_shapes := some 1,
    labeling_method := "Bogus" }

/-- Concrete constructor arguments with invalid base-graph parameters
(`m >= n`). -/
def invalidParamArgs : BAArgs :=
  { num_hops := 1, n := 2, m := 5, num_shapes := some 1 }

/-- Concrete constructor arguments with the default
`'network stats'` feature strategy and valid parameters. -/
def netStatsArgs : BAArgs :=
  { num_hops := 1, n := 4, m := 1, num_shapes := some 1,
    labeling_method := "edge" }

/-! Helper lemmas. -/

/-- The length of the `np.unique` list is the number of distinct values. -/
theorem npUnique_length (l : List Int) : (npUnique l).length = l.toFinset.card := by
  unfold npUnique
  rw [← List.card_toFinset, List.toFinset_eq_of_perm _ _ (List.perm_insertionSort _ l)]

/-- The filtered shape list of `labeling_rule`, as a finite set. -/
theorem filtered_shapes_toFinset (G : Graph) (l : List Nat) :
    ((l.filter (fun ni => 0 < G.shape ni)).map G.shape).toFinset
      = (l.toFinset.filter (fun ni => 0 < G.shape ni)).image G.shape := by
  ext a
  simp [List.mem_filter]

/-- `num_unique_houses` counts the distinct positive shape identifiers
present in the k-hop neighbourhood. -/
theorem num_unique_houses_eq_card (G : Graph) (hops v : Nat) :
    num_unique_houses G hops v
      = (((khop_subgraph_nx v hops G).toFinset.filter
          (fun ni => 0 < G.shape ni)).image G.shape).card := by
  unfold num_unique_houses
  rw [npUnique_length, filtered_shapes_toFinset]

/-- Collecting labels from an exception-free closure yields the map. -/
theorem collectLabels_map (h : Nat → Int) :
    ∀ l : List Nat, collectLabels (fun v => Except.ok (h v)) l = Except.ok (l.map h)
  | [] => rfl
  | v :: t => by
      rw [collectLabels, collectLabels_map h t]
      rfl

/-- The feature-assignment fold's first component is independent of the
RNG state when the closure is state-preserving. -/
theorem foldl_features_indep (getF : Nat → PyGlobals → (List ℚ × PyGlobals))
    (F : Nat → List ℚ) (hF : ∀ i s, getF i s = (F i, s)) :
    ∀ (l : List Nat) (p q : (Nat → List ℚ) × PyGlobals), p.1 = q.1 →
      (l.foldl (fun acc i =>
        let fv := getF i acc.2
        (Function.update acc.1 i fv.1, fv.2)) p).1
      = (l.foldl (fun acc i =>
        let fv := getF i acc.2
        (Function.update acc.1 i fv.1, fv.2)) q).1
  | [], _, _, h => h
  | i :: t, p, q, h => by
      rw [List.foldl_cons, List.foldl_cons]
      exact foldl_features_indep getF F hF t _ _ (by simp [hF, h])

/-- With a state-preserving feature closure, the featured graph does not
depend on the global RNG state. -/
theorem assign_features_indep (G : Graph) (getF : Nat → PyGlobals → (List ℚ × PyGlobals))
    (F : Nat → List ℚ) (hF : ∀ i s, getF i s = (F i, s)) (g g2 : PyGlobals) :
    (assign_features G getF g).1 = (assign_features G getF g2).1 := by
  exact congrArg (fun xf => { G with x := xf })
    (foldl_features_indep getF F hF (List.range G.n) (G.x, g) (G.x, g2) rfl)

/-- `builtTopology` after `finish_build` only reads node count and edges. -/
theorem builtTopology_finish_congr (GA GB : Graph) (ns : Option Int)
    (rA rB : Except PyError (List Int)) (hr : rA = rB)
    (hn : GA.n = GB.n) (he : GA.edges = GB.edges) :
    builtTopology (finish_build GA ns rA) = builtTopology (finish_build GB ns rB) := by
  subst hr
  cases rA with
  | error e => rfl
  | ok ys => simp [finish_build, builtTopology, hn, he]

/-- `builtTopology` of a successfully labeled build. -/
theorem builtTopology_finish_ok (G : Graph) (ns : Option Int) (ys : List Int) :
    builtTopology (finish_build G ns (Except.ok ys)) = some (G.n, G.edges) := rfl

/-- The final topology does not depend on the feature side of the
featured graph. -/
theorem build_after_features_topology (GA GB : Graph) (hops : Nat) (lm : String)
    (ns : Option Int) (hn : GA.n = GB.n) (he : GA.edges = GB.edges) :
    builtTopology (build_after_features GA hops lm ns)
      = builtTopology (build_after_features GB hops lm ns) := by
  unfold build_after_features labeling_rule
  split_ifs with h1 h2 h3
  · dsimp only
    simp only [assign_labels, collectLabels_map]
    rw [builtTopology_finish_ok, builtTopology_finish_ok, hn, he]
  · dsimp only
    simp only [assign_labels]
    refine builtTopology_finish_congr _ _ _ _ _ ?_ hn he
    rw [hn]
    rfl
  · dsimp only
    simp only [assign_labels, collectLabels_map]
    rw [builtTopology_finish_ok, builtTopology_finish_ok, hn, he]
  · rfl

/-- The final topology is independent of the global RNG state. -/
theorem build_after_base_topology (G1 : Graph) (hops : Nat) (fm lm : String)
    (ns : Option Int) (g g2 : PyGlobals) :
    builtTopology (build_after_base G1 hops fm lm ns g)
      = builtTopology (build_after_base G1 hops fm lm ns g2) := by
  unfold build_after_base
  cases feature_generator G1 fm with
  | error e => rfl
  | ok getF => exact build_after_features_topology _ _ _ _ _ rfl rfl

/-- With the `'network stats'` strategy the whole tail of the build is
independent of the global RNG state. -/
theorem build_after_base_netstats (G1 : Graph) (hops : Nat) (lm : String)
    (ns : Option Int) (g g2 : PyGlobals) :
    build_after_base G1 hops "network stats" lm ns g
      = build_after_base G1 hops "network stats" lm ns g2 := by
  unfold build_after_base
  have hgen : feature_generator G1 "network stats"
      = Except.ok (fun node_idx g => (network_stats_get_feature G1 node_idx, g)) := rfl
  rw [hgen]
  dsimp only
  rw [assign_features_indep G1 _ (network_stats_get_feature G1) (fun i s => rfl) g g2]

/-! Claim theorems. -/

/-- C10: the explanation generator of a BAShapes dataset yields `None`
for every node index, regardless of configuration. -/
theorem C10_explanations_none (a : BAArgs) (node_idx : Nat) :
    explanation_generator a node_idx = none := rfl

/-- C4 (code bug): asking for the unimplemented `'flag'` or `'circle'`
motif does abort construction, but with an accidental
`UnboundLocalError` (the `pass` branches leave `insert_shape` unbound),
not with the explicit not-implemented/configuration error the claim and
the sibling branches (`raise NotImplementedError()`) intend. -/
theorem C4_unimplemented_shape_error :
    BAShapes_init flagArgs gStateA = Except.error PyError.unboundLocal ∧
    BAShapes_init circleArgs gStateA = Except.error PyError.unboundLocal ∧
    PyError.unboundLocal ≠ PyError.notImplementedError :=
  ⟨rfl, rfl, by decide⟩

/-- C1 (code bug): the `'feature'` labeling closure raises `TypeError`
for every node — `torch(int(x1[node_idx] > med1), dtype=torch.long)`
calls the `torch` module itself instead of `torch.tensor` — so label
computation never returns; a whole build under the `'feature'` rule
aborts with that `TypeError`. -/
theorem C1_feature_rule_raises :
    (∀ (G : Graph) (node_idx : Nat),
      feature_get_label G node_idx = Except.error PyError.typeError) ∧
    BAShapes_init featureRuleArgs gStateA = Except.error PyError.typeError :=
  ⟨fun _ _ => rfl, rfl⟩

/-- C6 (code bug): the `'edge and feature'` label is the logical AND of
the edge condition and the feature comparison `x1[node_idx] > med1`; but
at the concrete graph `andGraph` node 0 has label 1 while the
`'feature'`-rule closure raises `TypeError` (the `torch(...)` slip)
instead of returning the feature-only label 1 the claim refers to. -/
theorem C6_and_rule_semantics :
    (∀ (G : Graph) (num_hops node_idx : Nat),
      edge_and_feature_get_label G num_hops node_idx =
        if edge_get_label G num_hops node_idx = 1 ∧ feature_label_int G node_idx = 1
        then 1 else 0) ∧
    edge_and_feature_get_label andGraph 1 0 = 1 ∧
    edge_get_label andGraph 1 0 = 1 ∧
    feature_label_int andGraph 0 = 1 ∧
    feature_get_label andGraph 0 = Except.error PyError.typeError := by
  refine ⟨?_, by decide, by decide, by decide, rfl⟩
  intro G num_hops node_idx
  unfold edge_and_feature_get_label edge_get_label feature_label_int
  by_cases h1 : num_unique_houses G num_hops node_idx = 1 <;>
    by_cases h2 : med1 G < (x1_list G).getD node_idx 0 <;>
    simp [h1, h2]

/-- C9: under the (case-sensitive) `'neighborhood upper bound'` planting
policy a `None` `num_shapes` is replaced by `n`; any other policy, and
any non-`None` `num_shapes`, is passed through to the builder unchanged,
and the value a successful build hands to the builder is exactly
`resolve_num_shapes`. -/
theorem C9_num_shapes_resolution (pm : String) (ns : Option Int) (n : Int) :
    (pm = "neighborhood upper bound" → resolve_num_shapes pm none n = some n) ∧
    (pm ≠ "neighborhood upper bound" → resolve_num_shapes pm ns n = ns) ∧
    (∀ k : Int, resolve_num_shapes pm (some k) n = some k) ∧
    (∀ (a : BAArgs) (g : PyGlobals),
      builtNumShapes (BAShapes_init a g) = none ∨
      builtNumShapes (BAShapes_init a g)
        = some (resolve_num_shapes a.plant_method a.num_shapes a.n)) := by
  refine ⟨?_, ?_, ?_, ?_⟩
  · intro h
    simp [resolve_num_shapes, h]
  · intro h
    simp [resolve_num_shapes, h]
  · intro k
    simp [resolve_num_shapes]
  · intro a g
    unfold BAShapes_init
    dsimp only
    cases select_insert_shape a.shape with
    | none => exact Or.inl rfl
    | some motif =>
      dsimp only
      cases barabasi_albert_graph a.n a.m a.seed with
      | error e => exact Or.inl rfl
      | ok G0 =>
        dsimp only
        unfold build_after_base
        cases feature_generator
            (plant_motifs G0 motif (resolve_num_shapes a.plant_method a.num_shapes a.n)
              a.plant_method a.insert_method) (pyLower a.feature_method) with
        | error e => exact Or.inl rfl
        | ok getF =>
          dsimp only
          unfold build_after_features
          cases labeling_rule
              (assign_features
                (plant_motifs G0 motif (resolve_num_shapes a.plant_method a.num_shapes a.n)
                  a.plant_method a.insert_method) getF g).1
              a.num_hops (canon_labeling a.labeling_method) with
          | error e => exact Or.inl rfl
          | ok getL =>
            dsimp only
            unfold finish_build
            cases assign_labels
                (assign_features
                  (plant_motifs G0 motif (resolve_num_shapes a.plant_method a.num_shapes a.n)
                    a.plant_method a.insert_method) getF g).1 getL with
            | error e => exact Or.inl rfl
            | ok ys => exact Or.inr rfl

/-- Witness for C9 at concrete inputs. -/
theorem C9_num_shapes_resolution_witness :
    resolve_num_shapes "neighborhood upper bound" none 7 = some 7 ∧
    resolve_num_shapes "global" (some 5) 7 = some 5 ∧
    resolve_num_shapes "global" none 7 = none :=
  ⟨(C9_num_shapes_resolution "neighborhood upper bound" none 7).1 rfl,
   (C9_num_shapes_resolution "global" (some 5) 7).2.2.1 5,
   (C9_num_shapes_resolution "global" none 7).2.1 (by decide)⟩

/-- C5: under the `'edge'` rule the label is 1 iff the k-hop
neighbourhood contains motif-tagged nodes with exactly one distinct
positive shape identifier; the label is always 0 or 1; and a node with
no motif-tagged node in its k-hop neighbourhood always gets label 0. -/
theorem C5_edge_rule (G : Graph) (num_hops node_idx : Nat) :
    (edge_get_label G num_hops node_idx = 1 ↔
      (((khop_subgraph_nx node_idx num_hops G).toFinset.filter
        (fun ni => 0 < G.shape ni)).image G.shape).card = 1) ∧
    (edge_get_label G num_hops node_idx = 0 ∨ edge_get_label G num_hops node_idx = 1) ∧
    ((∀ ni ∈ khop_subgraph_nx node_idx num_hops G, G.shape ni ≤ 0) →
      edge_get_label G num_hops node_idx = 0) := by
  have hcard := num_unique_houses_eq_card G num_hops node_idx
  unfold edge_get_label
  rw [hcard]
  refine ⟨?_, ?_, ?_⟩
  · by_cases h : (((khop_subgraph_nx node_idx num_hops G).toFinset.filter
        (fun ni => 0 < G.shape ni)).image G.shape).card = 1 <;> simp [h]
  · by_cases h : (((khop_subgraph_nx node_idx num_hops G).toFinset.filter
        (fun ni => 0 < G.shape ni)).image G.shape).card = 1 <;> simp [h]
  · intro hall
    have hfil : (khop_subgraph_nx node_idx num_hops G).toFinset.filter
        (fun ni => 0 < G.shape ni) = ∅ := by
      rw [Finset.filter_eq_empty_iff]
      intro x hx
      simp only [List.mem_toFinset] at hx
      exact not_lt.mpr (hall x hx)
    rw [hfil]
    simp

/-- Witness for C5: on the motif-free concrete graph the edge label of
node 0 is 0. -/
theorem C5_edge_rule_witness : edge_get_label noMotifGraph 1 0 = 0 :=
  (C5_edge_rule noMotifGraph 1 0).2.2 (by decide)

/-- C7: the `'onehot'` strategy returns the closure that draws one value
from the `random` stream; every generated vector has length 3, only
0/1 entries, exactly one entry 1 (so it sums to 1), and every one of the
3 positions is attainable (the drawn position is the RNG draw mod 3). -/
theorem C7_onehot_features :
    (∀ G : Graph, feature_generator G "onehot"
      = Except.ok (fun _node_idx g =>
          (onehot_get_feature g, { g with randomState := g.randomState.drop 1 }))) ∧
    (∀ g : PyGlobals,
      (onehot_get_feature g).length = 3 ∧
      (onehot_get_feature g).all (fun q => decide (q = 0 ∨ q = 1)) = true ∧
      (onehot_get_feature g).count 1 = 1 ∧
      (onehot_get_feature g).sum = 1) ∧
    (∀ i : Fin 3, ∃ g : PyGlobals, (onehot_get_feature g).getD i 0 = 1) := by
  refine ⟨fun G => rfl, ?_, ?_⟩
  · intro g
    have hh : onehot_get_feature g = onehotVec (g.randomState.headD 0 % 3) := rfl
    obtain h | h | h : g.randomState.headD 0 % 3 = 0 ∨
        g.randomState.headD 0 % 3 = 1 ∨ g.randomState.headD 0 % 3 = 2 := by omega
    · rw [hh, h, show onehotVec 0 = [1, 0, 0] from rfl]
      refine ⟨rfl, rfl, rfl, by norm_num⟩
    · rw [hh, h, show onehotVec 1 = [0, 1, 0] from rfl]
      refine ⟨rfl, rfl, rfl, by norm_num⟩
    · rw [hh, h, show onehotVec 2 = [0, 0, 1] from rfl]
      refine ⟨rfl, rfl, rfl, by norm_num⟩
  · intro i
    fin_cases i
    · exact ⟨{ randomState := [0], torchState := [] }, by decide⟩
    · exact ⟨{ randomState := [1], torchState := [] }, by decide⟩
    · exact ⟨{ randomState := [2], torchState := [] }, by decide⟩

/-- C2: an unsupported feature-strategy name makes `feature_generator`
itself raise `NotImplementedError` (for any graph, i.e. at
generator-construction time, before any per-node feature is produced)
and aborts the whole build with that error; an unsupported labeling-rule
name likewise makes `labeling_rule` itself raise and aborts the build
before any per-node label is computed. -/
theorem C2_unsupported_strategy_errors (a : BAArgs) (g : PyGlobals) (G : Graph)
    (hshape : pyLower a.shape = "house") (hm : 1 ≤ a.m) (hmn : a.m < a.n) :
    (pyLower a.feature_method ∉ supportedFeatureMethods →
      feature_generator G (pyLower a.feature_method)
        = Except.error PyError.notImplementedError ∧
      BAShapes_init a g = Except.error PyError.notImplementedError) ∧
    (canon_labeling a.labeling_method ∉ supportedLabelingMethods →
      pyLower a.feature_method ∈ supportedFeatureMethods →
      labeling_rule G a.num_hops (canon_labeling a.labeling_method)
        = Except.error PyError.notImplementedError ∧
      BAShapes_init a g = Except.error PyError.notImplementedError) := by
  have hsel : select_insert_shape a.shape = some house := by
    simp [select_insert_shape, hshape]
  have hba : barabasi_albert_graph a.n a.m a.seed = Except.ok
      { n := a.n.toNat
        edges := ((List.range a.n.toNat).filterMap (fun k =>
          if a.m.toNat ≤ k then some ((List.range a.m.toNat).map (fun j =>
            (k, (j + k + a.seed.getD 0) % k))) else none)).flatten
        x := fun _ => []
        shape := fun _ => 0 } := by
    unfold barabasi_albert_graph
    rw [if_neg (by omega)]
  constructor
  · intro hfm
    simp only [supportedFeatureMethods, List.mem_cons, List.not_mem_nil, or_false,
      not_or] at hfm
    obtain ⟨h1, h2, h3⟩ := hfm
    have hfg : ∀ G2 : Graph, feature_generator G2 (pyLower a.feature_method)
        = Except.error PyError.notImplementedError := by
      intro G2
      unfold feature_generator
      rw [if_neg h1, if_neg h2, if_neg h3]
    refine ⟨hfg G, ?_⟩
    unfold BAShapes_init
    dsimp only
    rw [hsel]
    dsimp only
    rw [hba]
    dsimp only
    unfold build_after_base
    rw [hfg]
  · intro hlm hfm
    simp only [supportedLabelingMethods, List.mem_cons, List.not_mem_nil, or_false,
      not_or] at hlm
    obtain ⟨k1, k2, k3⟩ := hlm
    have hlr : ∀ G2 : Graph, labeling_rule G2 a.num_hops (canon_labeling a.labeling_method)
        = Except.error PyError.notImplementedError := by
      intro G2
      unfold labeling_rule
      dsimp only
      rw [if_neg k1, if_neg k2, if_neg k3]
    refine ⟨hlr G, ?_⟩
    unfold BAShapes_init
    dsimp only
    rw [hsel]
    dsimp only
    rw [hba]
    dsimp only
    unfold build_after_base
    simp only [supportedFeatureMethods, List.mem_cons, List.not_mem_nil, or_false] at hfm
    obtain h | h | h := hfm
    · rw [h]
      rw [show ∀ G2 : Graph, feature_generator G2 "network stats"
          = Except.ok (fun node_idx g => (network_stats_get_feature G2 node_idx, g))
        from fun _ => rfl]
      dsimp only
      unfold build_after_features
      rw [hlr]
    · rw [h]
      rw [show ∀ G2 : Graph, feature_generator G2 "gaussian"
          = Except.ok (fun _node_idx g =>
            (g.torchState.take 3, { g with torchState := g.torchState.drop 3 }))
        from fun _ => rfl]
      dsimp only
      unfold build_after_features
      rw [hlr]
    · rw [h]
      rw [show ∀ G2 : Graph, feature_generator G2 "onehot"
          = Except.ok (fun _node_idx g =>
            (onehot_get_feature g, { g with randomState := g.randomState.drop 1 }))
        from fun _ => rfl]
      dsimp only
      unfold build_after_features
      rw [hlr]

/-- Witness for C2 at concrete inputs: an unsupported feature strategy
and an unsupported labeling rule both abort construction with
`NotImplementedError`. -/
theorem C2_unsupported_strategy_errors_witness :
    (feature_generator noMotifGraph (pyLower badFeatureArgs.feature_method)
      = Except.error PyError.notImplementedError ∧
     BAShapes_init badFeatureArgs gStateA = Except.error PyError.notImplementedError) ∧
    (labeling_rule noMotifGraph badLabelingArgs.num_hops
        (canon_labeling badLabelingArgs.labeling_method)
      = Except.error PyError.notImplementedError ∧
     BAShapes_init badLabelingArgs gStateA = Except.error PyError.notImplementedError) :=
  ⟨(C2_unsupported_strategy_errors badFeatureArgs gStateA noMotifGraph
      (by decide) (by decide) (by decide)).1 (by decide),
   (C2_unsupported_strategy_errors badLabelingArgs gStateA noMotifGraph
      (by decide) (by decide) (by decide)).2 (by decide) (by decide)⟩

/-- C8: invalid base-graph parameters (`m ≥ n`, or non-positive `n` or
`m`) make the base-graph builder raise its configuration error before
any graph exists, the whole dataset construction fails with that error,
and no built state is ever produced. -/
theorem C8_invalid_params_fail (a : BAArgs) (g : PyGlobals)
    (hinv : a.n ≤ a.m ∨ a.n ≤ 0 ∨ a.m ≤ 0)
    (hshape : pyLower a.shape = "house") :
    barabasi_albert_graph a.n a.m a.seed = Except.error PyError.networkXError ∧
    BAShapes_init a g = Except.error PyError.networkXError ∧
    ∀ st : BuiltState, BAShapes_init a g ≠ Except.ok st := by
  have hba : barabasi_albert_graph a.n a.m a.seed
      = Except.error PyError.networkXError := by
    unfold barabasi_albert_graph
    rw [if_pos (by omega)]
  have hsel : select_insert_shape a.shape = some house := by
    simp [select_insert_shape, hshape]
  have hinit : BAShapes_init a g = Except.error PyError.networkXError := by
    unfold BAShapes_init
    dsimp only
    rw [hsel]
    dsimp only
    rw [hba]
  exact ⟨hba, hinit, fun st h => by rw [hinit] at h; exact Except.noConfusion h⟩

/-- Witness for C8 at a concrete invalid parameter pair (n = 2, m = 5). -/
theorem C8_invalid_params_fail_witness :
    barabasi_albert_graph invalidParamArgs.n invalidParamArgs.m invalidParamArgs.seed
      = Except.error PyError.networkXError ∧
    BAShapes_init invalidParamArgs gStateA = Except.error PyError.networkXError :=
  ⟨(C8_invalid_params_fail invalidParamArgs gStateA (by decide) (by decide)).1,
   (C8_invalid_params_fail invalidParamArgs gStateA (by decide) (by decide)).2.1⟩

/-- C3 counterexample: two builds with literally identical constructor
arguments (including the seed) but different global RNG states produce
different node-0 feature vectors under the `'onehot'` strategy, so the
one-hot strategy is not reproducible from the explicit seed alone. -/
theorem C3_seed_determinism_counterexample :
    builtFeature (BAShapes_init onehotArgs gStateA) 0
      ≠ builtFeature (BAShapes_init onehotArgs gStateB) 0 := by decide

/-- C3 amended: with identical parameters and seed the two builds always
agree on the graph's node and edge sets, and under the `'network stats'`
strategy (which reads no RNG) the whole builds — features and labels
included — are identical; the gaussian and one-hot strategies
additionally depend on global RNG state that the seed does not drive. -/
theorem C3_amended_determinism (a : BAArgs) (g g2 : PyGlobals) :
    builtTopology (BAShapes_init a g) = builtTopology (BAShapes_init a g2) ∧
    (pyLower a.feature_method = "network stats" →
      BAShapes_init a g = BAShapes_init a g2) := by
  constructor
  · unfold BAShapes_init
    cases select_insert_shape a.shape with
    | none => rfl
    | some motif =>
      cases barabasi_albert_graph a.n a.m a.seed with
      | error e => rfl
      | ok G0 => exact build_after_base_topology _ _ _ _ _ g g2
  · intro hfm
    unfold BAShapes_init
    rw [hfm]
    cases select_insert_shape a.shape with
    | none => rfl
    | some motif =>
      cases barabasi_albert_graph a.n a.m a.seed with
      | error e => rfl
      | ok G0 => exact build_after_base_netstats _ _ _ _ g g2

/-- Witness for C3 (amended) at concrete inputs: with the default
`'network stats'` strategy two builds under different global RNG states
coincide completely. -/
theorem C3_amended_determinism_witness :
    builtTopology (BAShapes_init netStatsArgs gStateA)
      = builtTopology (BAShapes_init netStatsArgs gStateB) ∧
    BAShapes_init netStatsArgs gStateA = BAShapes_init netStatsArgs gStateB :=
  ⟨(C3_amended_determinism netStatsArgs gStateA gStateB).1,
   (C3_amended_determinism netStatsArgs gStateA gStateB).2 (by decide)⟩
